import Mathlib

/-!
Verification of the release-resolution and cache-consistency engine of a
version-manager/launcher CLI (`src/index.js`).  The JavaScript source is
shallowly embedded: remote releases, the on-disk cache directory, the
selection-prompt state and the install pipeline become explicit Lean data,
and the program's operations become pure functions over them.
-/

/-- A release asset as returned by the remote index:
`{name, browser_download_url, size}`. -/
structure Asset where
  name : String
  browser_download_url : String
  size : Nat
deriving Repr, DecidableEq

/-- A release record as returned by the remote index:
`{tag_name, prerelease, published_at, assets}`.  `published_at` is the
timestamp as a number (the JS code compares `new Date(...)` values). -/
structure Release where
  tag_name : String
  prerelease : Bool
  published_at : Int
  assets : List Asset
deriving Repr, DecidableEq

/-- The observable state of a persisted JSON file: absent, present but
failing `JSON.parse`, or parsed content. -/
inductive FileContent (α : Type) where
  | missing
  | corrupt
  | parsed (a : α)
deriving Repr, DecidableEq

/-! ## Release index client (`updateReleases`, lines 46-54)

`updateReleases` runs both fetches, builds `[latestRelease, ...releases]`,
overwrites `releases.json` with that combined list, and returns it. -/

/-- The persisted state in the cache directory that `updateReleases`
touches: the `releases.json` snapshot. -/
structure Store where
  snapshot : FileContent (List Release)
deriving Repr, DecidableEq

/-- `updateReleases` (src/index.js lines 46-54): given the results of the
two concurrent fetches, prepend the latest release to the full list, write
that combined list wholesale to `releases.json`, and return it. -/
def updateReleases (store : Store) (fetchedReleases : List Release)
    (latestRelease : Release) : Store × List Release :=
  let allReleases := latestRelease :: fetchedReleases
  ({ store with snapshot := .parsed allReleases }, allReleases)

/-! ## Local cache store (lines 64-98)

The cache root is what `fs.readdir(cacheDir)` can see: a list of named
entries, each a directory or a plain file, each with the state of the
`release.json` manifest inside it. -/

/-- One entry of the cache root: its name, whether `fs.stat(...).isDirectory()`
holds, and the state of the `release.json` file inside it. -/
structure DirEntry where
  name : String
  isDir : Bool
  releaseJson : FileContent Release
deriving Repr, DecidableEq

/-- The cache root directory as enumerated by `fs.readdir`. -/
structure CacheDir where
  entries : List DirEntry
deriving Repr, DecidableEq

/-- `cachedVersions` (lines 72-80): the names of the entries of the cache
root that are directories — no manifest is consulted. -/
def cachedVersions (c : CacheDir) : List String :=
  (c.entries.filter (fun e => e.isDir)).map (fun e => e.name)

/-- Manifest parse for one version (lines 84-88): read
`cacheDir/<version>/release.json` and `JSON.parse` it, with
`.catch(() => null)` — a missing or unparsable file yields `null`. -/
def readManifest (c : CacheDir) (version : String) : Option Release :=
  match c.entries.find? (fun e => e.name == version) with
  | some e =>
      match e.releaseJson with
      | .parsed r => some r
      | _ => none
  | none => none

/-- `cachedReleases` (lines 82-90): map `readManifest` over
`cachedVersions` and `filter(Boolean)` the nulls away. -/
def cachedReleases (c : CacheDir) : List Release :=
  (cachedVersions c).filterMap (readManifest c)

/-- The check used both to decide whether to skip the install pipeline
(line 179) and to mark the stable choice `(cached)` (line 114):
`cachedVersions.includes(tag)` — directory presence only. -/
def isTreatedCached (c : CacheDir) (tag : String) : Bool :=
  (cachedVersions c).contains tag

/-- Claim C8: after a successful refresh, the returned sequence is the
latest-release result prepended to the full fetched list, and the snapshot
afterwards contains exactly that combined list, independent of what the
old snapshot held. -/
theorem C8_refresh_replaces_snapshot (store : Store)
    (fetchedReleases : List Release) (latestRelease : Release) :
    (updateReleases store fetchedReleases latestRelease).2
        = latestRelease :: fetchedReleases
    ∧ (updateReleases store fetchedReleases latestRelease).1.snapshot
        = .parsed (latestRelease :: fetchedReleases)
    ∧ ∀ r, (∃ l, (updateReleases store fetchedReleases latestRelease).1.snapshot
              = .parsed l ∧ r ∈ l)
        ↔ (r = latestRelease ∨ r ∈ fetchedReleases) := by
  refine ⟨rfl, rfl, ?_⟩
  intro r
  constructor
  · rintro ⟨l, hl, hr⟩
    cases hl
    simpa using hr
  · intro h
    exact ⟨latestRelease :: fetchedReleases, rfl, by simpa using h⟩

/-- A cache state with one directory `0.H` that holds files but no
parsable manifest (for example an interrupted install). -/
def dirNoManifest : CacheDir :=
  ⟨[{ name := "0.H", isDir := true, releaseJson := .missing }]⟩

/-- Claim C1 is false as stated: in `dirNoManifest` the directory `0.H`
has no parsable manifest, yet the program treats it as cached both when
deciding to skip the install pipeline and when marking the stable choice
`(cached)` (`cachedVersions.includes`, lines 109/114/179 — directory
presence only). -/
theorem C1_counterexample :
    isTreatedCached dirNoManifest "0.H" = true
    ∧ readManifest dirNoManifest "0.H" = none
    ∧ cachedReleases dirNoManifest = [] := by
  refine ⟨rfl, rfl, rfl⟩

/-- Claim C1 (amended): only the choice-list tail is manifest-verified —
a release is enumerated by `cachedReleases` iff some cache-root directory's
`release.json` parses to it; the skip-install decision and the `(cached)`
marks instead treat a version as cached iff a directory of that name
exists, manifest or not. -/
theorem C1_amended_manifest_only_for_tail (c : CacheDir) :
    (∀ r, r ∈ cachedReleases c
        ↔ ∃ v, v ∈ cachedVersions c ∧ readManifest c v = some r)
    ∧ (∀ tag, isTreatedCached c tag = true ↔ tag ∈ cachedVersions c) := by
  constructor
  · intro r
    simp [cachedReleases, List.mem_filterMap]
  · intro tag
    simp [isTreatedCached]

/-! ## Settings and the startup snapshot load (lines 55-66, 92-98) -/

/-- `settings.json` content: `{ lastVersion: tag }`, the tag possibly
absent. -/
structure Settings where
  lastVersion : Option String
deriving Repr, DecidableEq

/-- Settings read (lines 95-98): read + `JSON.parse` with
`.catch(() => ({}))` — a missing or corrupt file yields the empty
settings object. -/
def readSettings : FileContent Settings → Settings
  | .parsed s => s
  | _ => { lastVersion := none }

/-- The per-version manifest parse as a standalone function of the file's
state (the `.catch(() => null)` of lines 85-88). -/
def parseManifestFile : FileContent Release → Option Release
  | .parsed r => some r
  | _ => none

/-- Startup snapshot load (lines 55-66).  If `releases.json` is missing
(`fs.stat` fails), `updateReleases` runs first — parameterized here by the
outcome of the two fetches — and writes the file, setting `fetched`.
Then the file is read and `JSON.parse`d with **no** error recovery
(lines 64-66): a corrupt existing file throws, uncaught, which is fatal.
Returns `(releases, store, fetched)` or the uncaught error. -/
def startupLoadReleases (store : Store)
    (fetchOutcome : Except String (List Release × Release)) :
    Except String (List Release × Store × Bool) :=
  match store.snapshot with
  | .missing =>
      match fetchOutcome with
      | .error e => .error e
      | .ok (fetchedReleases, latestRelease) =>
          let p := updateReleases store fetchedReleases latestRelease
          .ok (p.2, p.1, true)
  | .corrupt => .error "SyntaxError: Unexpected token in JSON"
  | .parsed rs => .ok (rs, store, false)

/-- Claim C4 is false as stated: a corrupt `releases.json` snapshot is
fatal — the startup read (line 64-66) has no `.catch`, so `JSON.parse`
throws out of the top-level await, even when the network fetch would have
succeeded. -/
theorem C4_counterexample :
    startupLoadReleases { snapshot := .corrupt }
        (.ok ([], { tag_name := "0.G", prerelease := false,
                    published_at := 0, assets := [] }))
      = .error "SyntaxError: Unexpected token in JSON" := by
  rfl

/-- Claim C4 (amended): a corrupt or missing settings file and a corrupt
or missing per-version manifest are recovered locally as default/absent,
but a corrupt `releases.json` snapshot at startup is fatal (its read has
no recovery). -/
theorem C4_amended_corrupt_reads
    (fetchOutcome : Except String (List Release × Release)) :
    readSettings .corrupt = { lastVersion := none }
    ∧ readSettings .missing = { lastVersion := none }
    ∧ parseManifestFile .corrupt = none
    ∧ parseManifestFile .missing = none
    ∧ (∀ c : CacheDir, ∀ v e, c.entries.find? (fun x => x.name == v) = some e →
        e.releaseJson = .corrupt → readManifest c v = none)
    ∧ startupLoadReleases { snapshot := .corrupt } fetchOutcome
        = .error "SyntaxError: Unexpected token in JSON" := by
  refine ⟨rfl, rfl, rfl, rfl, ?_, rfl⟩
  intro c v e hfind hcor
  simp [readManifest, hfind, hcor]

/-- Witness for C4 (amended) at a concrete cache directory whose
manifest is corrupt. -/
theorem C4_amended_corrupt_reads_witness :
    readManifest
        ⟨[{ name := "0.H", isDir := true, releaseJson := .corrupt }]⟩
        "0.H" = none :=
  (C4_amended_corrupt_reads (.error "offline")).2.2.2.2.1
    ⟨[{ name := "0.H", isDir := true, releaseJson := .corrupt }]⟩ "0.H"
    { name := "0.H", isDir := true, releaseJson := .corrupt } rfl rfl

/-! ## Release classification and the choice list (lines 68-127)

`assetMatch` (lines 100-104) is one fixed name pattern per platform
(`RegExp.prototype.test`); it is abstracted as a boolean predicate on the
asset name. -/

/-- `stableReleases` (line 68): releases not flagged prerelease. -/
def stableReleases (releases : List Release) : List Release :=
  releases.filter (fun r => !r.prerelease)

/-- `experimentalReleases` (line 69): releases flagged prerelease. -/
def experimentalReleases (releases : List Release) : List Release :=
  releases.filter (fun r => r.prerelease)

/-- `experimentalRelease` (line 107): the first prerelease with an asset
whose name matches the current platform's pattern; may be absent. -/
def experimentalRelease (assetMatch : String → Bool)
    (releases : List Release) : Option Release :=
  (experimentalReleases releases).find?
    (fun r => r.assets.any (fun a => assetMatch a.name))

/-- The ordering used by `byDate` (line 111): `a` comes no later than `b`
in the sorted output iff `a` was published no earlier than `b`
(descending publish time). -/
def laterFirst (a b : Release) : Prop := b.published_at ≤ a.published_at

instance : DecidableRel laterFirst := fun a b =>
  inferInstanceAs (Decidable (b.published_at ≤ a.published_at))

instance : IsTotal Release laterFirst :=
  ⟨fun a b => (le_total b.published_at a.published_at).elim Or.inl Or.inr⟩

instance : IsTrans Release laterFirst :=
  ⟨fun _ _ _ hab hbc => le_trans hbc hab⟩

/-- `cachedReleases.sort(byDate)` (line 122): `Array.prototype.sort` is
stable, and a stable sort under a total preorder has a unique result, so
it is modeled by the stable `insertionSort` under `laterFirst`. -/
def sortByDate (rs : List Release) : List Release :=
  rs.insertionSort laterFirst

/-- A choice's hint: either fixed at construction, or the experimental
entry's closure (lines 118-120), which reads the `fetched` flag at render
time and captures the experimental release. -/
inductive Hint where
  | fixed : Option String → Hint
  | experimentalAge : Release → Hint
deriving Repr, DecidableEq

/-- Hint rendering (enquirer invokes function hints at render time).
`fmtDistance` abstracts `formatDistanceToNow` applied to the captured
release's publish timestamp; `chalk.dim` is presentation and dropped. -/
def renderHint (fmtDistance : Int → String) (fetched : Bool) :
    Hint → Option String
  | .fixed s => s
  | .experimentalAge r =>
      some (if fetched
            then "(" ++ fmtDistance r.published_at ++ ")"
            else "(fetching...)")

/-- A select-prompt choice record `{name, value, hint, disabled}`.  The
source never sets `disabled` on any choice, so it is `false` everywhere. -/
structure Choice where
  name : String
  value : Release
  hint : Hint
  disabled : Bool := false
deriving Repr, DecidableEq

/-- The choice list (lines 113-127), given the two pinned releases.
Entry 0: the stable release, hinted `(cached)` iff its tag is a cache
*directory*; entry 1: the experimental release with the `fetched`-reading
hint closure; then the manifest-verified cached releases sorted by
publish date descending, minus those matching the stable tag. -/
def buildChoices (stable0 expRel : Release) (cachedVs : List String)
    (cachedRs : List Release) : List Choice :=
  { name := "Stable (" ++ stable0.tag_name ++ ")", value := stable0,
    hint := .fixed (if cachedVs.contains stable0.tag_name
                    then some "(cached)" else none) }
  :: { name := "Latest Experimental (" ++ expRel.tag_name ++ ")",
       value := expRel, hint := .experimentalAge expRel }
  :: (((sortByDate cachedRs).map (fun r =>
        { name := r.tag_name, value := r,
          hint := Hint.fixed (some "(cached)") : Choice })).filter
      (fun ch => ch.value.tag_name != stable0.tag_name))

/-- Lines 107-127 as executed: `stableReleases[0].tag_name` (line 114) and
`experimentalRelease.tag_name` (line 116) are dereferenced without any
presence check, so when either value is absent the run throws a
`TypeError` — modeled as `none`. -/
def mkChoices (assetMatch : String → Bool) (releases : List Release)
    (cachedVs : List String) (cachedRs : List Release) :
    Option (List Choice) :=
  match (stableReleases releases).head?,
        experimentalRelease assetMatch releases with
  | some stable0, some expRel =>
      some (buildChoices stable0 expRel cachedVs cachedRs)
  | _, _ => none

/-! ## Concrete fixtures used by the counterexamples -/

/-- An asset whose name the darwin pattern accepts. -/
def osxAsset : Asset :=
  { name := "cdda-osx-tiles-universal.dmg",
    browser_download_url := "https://example.invalid/osx.dmg", size := 42 }

/-- An asset whose name the darwin pattern rejects. -/
def winAsset : Asset :=
  { name := "cdda-windows-tiles-sounds-x64.zip",
    browser_download_url := "https://example.invalid/win.zip", size := 42 }

/-- A concrete instance of the platform asset pattern, accepting exactly
the darwin asset name. -/
def osxMatch : String → Bool := fun name => name == osxAsset.name

/-- A stable release carrying a matching asset. -/
def relStable : Release :=
  { tag_name := "0.G", prerelease := false, published_at := 100,
    assets := [osxAsset] }

/-- A prerelease whose only asset does not match the darwin pattern. -/
def relExpWinOnly : Release :=
  { tag_name := "2024-01-01-0456", prerelease := true, published_at := 200,
    assets := [winAsset] }

/-- A prerelease with a matching asset. -/
def relExpOsx : Release :=
  { tag_name := "2024-02-02-0456", prerelease := true, published_at := 300,
    assets := [osxAsset] }

/-- Claim C5 names a code bug: with a release list whose only prerelease
has no asset matching the platform pattern, `experimentalRelease` is
absent and line 116 reads `.tag_name` of `undefined`, so building the
choice list throws a `TypeError` (modeled as `none`) instead of the run
proceeding with no experimental choice. -/
theorem C5_no_matching_prerelease_is_fatal :
    mkChoices osxMatch [relStable, relExpWinOnly] [] [] = none
    ∧ experimentalRelease osxMatch [relStable, relExpWinOnly] = none
    ∧ (stableReleases [relStable, relExpWinOnly]).head? = some relStable := by
  refine ⟨rfl, rfl, rfl⟩

/-- Two distinct cache directories whose manifests carry the same tag. -/
def dupRelA : Release :=
  { tag_name := "dup-tag", prerelease := false, published_at := 50,
    assets := [] }

/-- Second manifest with the same tag as `dupRelA` (see `dupCache`). -/
def dupRelB : Release :=
  { tag_name := "dup-tag", prerelease := false, published_at := 40,
    assets := [] }

/-- A cache whose two directories both hold manifests tagged `dup-tag`. -/
def dupCache : CacheDir :=
  ⟨[{ name := "dirA", isDir := true, releaseJson := .parsed dupRelA },
    { name := "dirB", isDir := true, releaseJson := .parsed dupRelB }]⟩

/-- Claim C7 is false as stated: nothing de-duplicates the cached tail by
tag — two cache directories whose manifests carry the same tag yield a
rendered tail with a duplicate tag. -/
theorem C7_counterexample :
    (((buildChoices relStable relExpOsx (cachedVersions dupCache)
          (cachedReleases dupCache)).drop 2).map
        (fun ch => ch.value.tag_name) = ["dup-tag", "dup-tag"])
    ∧ ¬ (((buildChoices relStable relExpOsx (cachedVersions dupCache)
          (cachedReleases dupCache)).drop 2).map
        (fun ch => ch.value.tag_name)).Nodup := by
  have h : ((buildChoices relStable relExpOsx (cachedVersions dupCache)
        (cachedReleases dupCache)).drop 2).map
      (fun ch => ch.value.tag_name) = ["dup-tag", "dup-tag"] := rfl
  refine ⟨h, ?_⟩
  rw [h]
  decide

/-- Claim C7 (amended): the rendered list is the stable entry, then the
experimental entry, then exactly the cached releases with tag different
from the stable tag, sorted by publish time descending; the tail's tags
are pairwise distinct *provided* the cached manifests' tags are pairwise
distinct (two directories whose manifests share a tag yield duplicates). -/
theorem C7_amended_choice_list_shape (stable0 expRel : Release)
    (cachedVs : List String) (cachedRs : List Release)
    (hTags : (cachedRs.map Release.tag_name).Nodup) :
    ((buildChoices stable0 expRel cachedVs cachedRs).head?.map Choice.value
        = some stable0)
    ∧ (((buildChoices stable0 expRel cachedVs cachedRs).drop 1).head?.map
        Choice.value = some expRel)
    ∧ (((buildChoices stable0 expRel cachedVs cachedRs).drop 2).map
          Choice.value
        = (sortByDate cachedRs).filter
            (fun r => r.tag_name != stable0.tag_name))
    ∧ (((buildChoices stable0 expRel cachedVs cachedRs).drop 2).map
        Choice.value).Sorted laterFirst
    ∧ (∀ r, r ∈ ((buildChoices stable0 expRel cachedVs cachedRs).drop 2).map
          Choice.value
        ↔ (r ∈ cachedRs ∧ r.tag_name ≠ stable0.tag_name))
    ∧ (((buildChoices stable0 expRel cachedVs cachedRs).drop 2).map
        (fun ch => ch.value.tag_name)).Nodup := by
  have hdrop : (buildChoices stable0 expRel cachedVs cachedRs).drop 2
      = ((sortByDate cachedRs).map (fun r =>
          { name := r.tag_name, value := r,
            hint := Hint.fixed (some "(cached)") : Choice })).filter
        (fun ch => ch.value.tag_name != stable0.tag_name) := rfl
  have hmap : ((buildChoices stable0 expRel cachedVs cachedRs).drop 2).map
        Choice.value
      = (sortByDate cachedRs).filter
          (fun r => r.tag_name != stable0.tag_name) := by
    rw [hdrop, List.filter_map, List.map_map]
    simp [Function.comp_def]
  refine ⟨rfl, rfl, hmap, ?_, ?_, ?_⟩
  · rw [hmap]
    exact List.Sorted.filter _
      (List.sorted_insertionSort laterFirst cachedRs)
  · intro r
    rw [hmap]
    simp [List.mem_filter, sortByDate,
      (List.perm_insertionSort laterFirst cachedRs).mem_iff]
  · have htagmap : ((buildChoices stable0 expRel cachedVs cachedRs).drop 2).map
          (fun ch => ch.value.tag_name)
        = (((buildChoices stable0 expRel cachedVs cachedRs).drop 2).map
            Choice.value).map Release.tag_name := by
      rw [List.map_map]
      rfl
    rw [htagmap, hmap]
    have hsortedNodup : ((sortByDate cachedRs).map Release.tag_name).Nodup :=
      (((List.perm_insertionSort laterFirst cachedRs).map
        Release.tag_name).symm).nodup hTags
    exact List.Nodup.sublist
      ((List.filter_sublist _).map Release.tag_name) hsortedNodup

/-- Witness for C7 (amended) at a one-directory cache. -/
theorem C7_amended_choice_list_shape_witness :
    ((buildChoices relStable relExpOsx ["dirA"] [dupRelA]).head?.map
        Choice.value = some relStable)
    ∧ (((buildChoices relStable relExpOsx ["dirA"] [dupRelA]).drop
        1).head?.map Choice.value = some relExpOsx)
    ∧ (((buildChoices relStable relExpOsx ["dirA"] [dupRelA]).drop 2).map
          Choice.value
        = (sortByDate [dupRelA]).filter
            (fun r => r.tag_name != relStable.tag_name))
    ∧ (((buildChoices relStable relExpOsx ["dirA"] [dupRelA]).drop 2).map
        Choice.value).Sorted laterFirst
    ∧ (∀ r, r ∈ ((buildChoices relStable relExpOsx ["dirA"]
          [dupRelA]).drop 2).map Choice.value
        ↔ (r ∈ [dupRelA] ∧ r.tag_name ≠ relStable.tag_name))
    ∧ (((buildChoices relStable relExpOsx ["dirA"] [dupRelA]).drop 2).map
        (fun ch => ch.value.tag_name)).Nodup :=
  C7_amended_choice_list_shape relStable relExpOsx ["dirA"] [dupRelA]
    (by decide)

/-! ## Interactive controller state and the background refresh
(lines 132-171) -/

/-- The mutable state the background-refresh continuation can touch:
the prompt's choice list, cursor index and submitted flag, plus the
module-level `fetched` and `releases` variables. -/
structure PromptState where
  choices : List Choice
  index : Nat
  submitted : Bool
  fetched : Bool
  releases : List Release
deriving Repr, DecidableEq

/-- The background-refresh continuation (lines 160-171): on fulfillment,
`if (prompt.state.submitted) return`, else set `fetched`, replace the
module-level `releases`, and re-render; on rejection the same guard, then
set `fetched` and re-render ("fail silently").  Re-rendering re-evaluates
hint closures but mutates no state. -/
def onRefreshSettled (st : PromptState)
    (result : Except String (List Release)) : PromptState :=
  if st.submitted then st
  else
    match result with
    | .ok newReleases => { st with fetched := true, releases := newReleases }
    | .error _ => { st with fetched := true }

/-- Claim C3: once the submitted flag is set, a background refresh that
settles afterwards — fulfilled or rejected — performs no mutation at all:
the state, hence the choice list and the already-returned selection at
`choices[index]`, is unchanged. -/
theorem C3_no_mutation_after_commit (st : PromptState)
    (result : Except String (List Release))
    (hsub : st.submitted = true) :
    onRefreshSettled st result = st := by
  simp [onRefreshSettled, hsub]

/-- Witness for C3 at a concrete submitted state. -/
theorem C3_no_mutation_after_commit_witness :
    onRefreshSettled
        { choices := buildChoices relStable relExpOsx [] [],
          index := 0, submitted := true, fetched := false,
          releases := [relStable, relExpOsx] }
        (.ok [relExpWinOnly])
      = { choices := buildChoices relStable relExpOsx [] [],
          index := 0, submitted := true, fetched := false,
          releases := [relStable, relExpOsx] } :=
  C3_no_mutation_after_commit
    { choices := buildChoices relStable relExpOsx [] [],
      index := 0, submitted := true, fetched := false,
      releases := [relStable, relExpOsx] }
    (.ok [relExpWinOnly]) rfl

/-- A pending run state: snapshot loaded from disk (`fetched = false`),
prompt rendered, refresh still in flight. -/
def pendingState : PromptState :=
  { choices := buildChoices relStable relExpOsx [] [],
    index := 0, submitted := false, fetched := false,
    releases := [relStable, relExpOsx] }

/-- Claim C6 is false as stated: while the refresh is pending the
experimental entry is *not* disabled (the source never sets `disabled`),
and when the refresh resolves — here with a different experimental
release — no in-place update of the entry's label, value or disabled
flag happens: the choice records are bit-for-bit unchanged; only the
module-level `fetched`/`releases` variables change, which the hint
closure observes at the next render. -/
theorem C6_counterexample :
    ((pendingState.choices.drop 1).head?.map Choice.disabled = some false)
    ∧ (onRefreshSettled pendingState
        (.ok [relStable, relExpWinOnly])).choices = pendingState.choices
    ∧ ((onRefreshSettled pendingState
        (.ok [relStable, relExpWinOnly])).choices.drop 1).head?.map
          Choice.value = some relExpOsx := by
  refine ⟨rfl, ?_, ?_⟩ <;> rfl

/-- Claim C6 (amended): while the refresh is pending the experimental
entry's hint renders `(fetching...)` (the entry is never disabled); when
the refresh settles before commit, the only mutations are setting
`fetched` (and, on success, the module-level releases list): choice
records, order and cursor are untouched, and the hint closure thereafter
renders the age of the release captured at construction. -/
theorem C6_amended_pending_hint_only (fmtDistance : Int → String)
    (expRel : Release) (st : PromptState) (newReleases : List Release)
    (e : String) (hsub : st.submitted = false) :
    renderHint fmtDistance false (Hint.experimentalAge expRel)
        = some "(fetching...)"
    ∧ renderHint fmtDistance true (Hint.experimentalAge expRel)
        = some ("(" ++ fmtDistance expRel.published_at ++ ")")
    ∧ (onRefreshSettled st (.ok newReleases)).choices = st.choices
    ∧ (onRefreshSettled st (.ok newReleases)).index = st.index
    ∧ (onRefreshSettled st (.ok newReleases)).fetched = true
    ∧ (onRefreshSettled st (.error e)).choices = st.choices
    ∧ (onRefreshSettled st (.error e)).index = st.index
    ∧ (onRefreshSettled st (.error e)).fetched = true := by
  refine ⟨rfl, rfl, ?_, ?_, ?_, ?_, ?_, ?_⟩ <;>
    simp [onRefreshSettled, hsub]

/-- Witness for C6 (amended) at the concrete pending state. -/
theorem C6_amended_pending_hint_only_witness :
    renderHint (fun _ => "3 days ago") false
        (Hint.experimentalAge relExpOsx) = some "(fetching...)"
    ∧ renderHint (fun _ => "3 days ago") true
        (Hint.experimentalAge relExpOsx) = some "(3 days ago)"
    ∧ (onRefreshSettled pendingState
        (.ok [relStable, relExpWinOnly])).choices = pendingState.choices
    ∧ (onRefreshSettled pendingState
        (.ok [relStable, relExpWinOnly])).index = pendingState.index
    ∧ (onRefreshSettled pendingState
        (.ok [relStable, relExpWinOnly])).fetched = true
    ∧ (onRefreshSettled pendingState (.error "offline")).choices
        = pendingState.choices
    ∧ (onRefreshSettled pendingState (.error "offline")).index
        = pendingState.index
    ∧ (onRefreshSettled pendingState (.error "offline")).fetched = true :=
  C6_amended_pending_hint_only (fun _ => "3 days ago") relExpOsx
    pendingState [relStable, relExpWinOnly] "offline" rfl

/-! ## The delete side-action (lines 142-157) -/

/-- `fs.rm(join(cacheDir, tag), { recursive: true })` (line 153): the
entry named `tag` disappears from the cache root. -/
def removeInstallDir (c : CacheDir) (tag : String) : CacheDir :=
  ⟨c.entries.filter (fun e => e.name != tag)⟩

/-- The Shift+D delete handler (lines 142-157): read the highlighted
choice, then ask an explicit yes/no confirmation (`initial: false`).
Only on an affirmative answer is `cacheDir/<tag>` removed from disk and
every choice carrying that tag filtered out of the displayed list (then
re-rendered); on decline nothing is touched.  Returns the disk and the
choice list afterwards. -/
def deleteAction (disk : CacheDir) (choices : List Choice) (index : Nat)
    (confirm : Bool) : CacheDir × List Choice :=
  match choices.get? index with
  | none => (disk, choices)
  | some sel =>
      if confirm then
        (removeInstallDir disk sel.value.tag_name,
         choices.filter
           (fun ch => ch.value.tag_name != sel.value.tag_name))
      else (disk, choices)

/-- Claim C9: deletion happens only under an explicit confirmation — with
`confirm = false` disk and list are exactly unchanged (the entry stays on
disk and visible); with `confirm = true` the selected entry's directory
is gone from the cache root (hence from the directory enumeration) and no
displayed choice carries its tag any more, while choices with other tags
remain. -/
theorem C9_delete_requires_confirmation (disk : CacheDir)
    (choices : List Choice) (index : Nat) (sel : Choice)
    (hsel : choices.get? index = some sel) :
    (deleteAction disk choices index false = (disk, choices))
    ∧ ((deleteAction disk choices index true).1
        = removeInstallDir disk sel.value.tag_name)
    ∧ (sel.value.tag_name ∉
        cachedVersions (deleteAction disk choices index true).1)
    ∧ (∀ ch ∈ (deleteAction disk choices index true).2,
        ch.value.tag_name ≠ sel.value.tag_name)
    ∧ (∀ ch ∈ choices, ch.value.tag_name ≠ sel.value.tag_name →
        ch ∈ (deleteAction disk choices index true).2) := by
  have hda : ∀ b, deleteAction disk choices index b
      = if b then
          (removeInstallDir disk sel.value.tag_name,
           choices.filter
             (fun ch => ch.value.tag_name != sel.value.tag_name))
        else (disk, choices) := by
    intro b
    unfold deleteAction
    rw [hsel]
  refine ⟨?_, ?_, ?_, ?_, ?_⟩
  · simp [hda]
  · simp [hda]
  · simp [hda, cachedVersions, removeInstallDir, List.mem_map,
      List.mem_filter]
  · intro ch hch
    rw [hda] at hch
    simp [List.mem_filter] at hch
    exact hch.2
  · intro ch hch hne
    rw [hda]
    simp [List.mem_filter]
    exact ⟨hch, hne⟩

/-- Witness for C9: a two-entry list; deleting the highlighted second
entry under each answer. -/
theorem C9_delete_requires_confirmation_witness :
    (deleteAction dupCache (buildChoices relStable relExpOsx [] []) 1
        false = (dupCache, buildChoices relStable relExpOsx [] []))
    ∧ ((deleteAction dupCache (buildChoices relStable relExpOsx [] []) 1
        true).1 = removeInstallDir dupCache relExpOsx.tag_name)
    ∧ (relExpOsx.tag_name ∉ cachedVersions
        (deleteAction dupCache (buildChoices relStable relExpOsx [] []) 1
          true).1)
    ∧ (∀ ch ∈ (deleteAction dupCache
          (buildChoices relStable relExpOsx [] []) 1 true).2,
        ch.value.tag_name ≠ relExpOsx.tag_name)
    ∧ (∀ ch ∈ buildChoices relStable relExpOsx [] [],
        ch.value.tag_name ≠ relExpOsx.tag_name →
        ch ∈ (deleteAction dupCache
          (buildChoices relStable relExpOsx [] []) 1 true).2) := by
  have h := C9_delete_requires_confirmation dupCache
    (buildChoices relStable relExpOsx [] []) 1
    { name := "Latest Experimental (" ++ relExpOsx.tag_name ++ ")",
      value := relExpOsx, hint := .experimentalAge relExpOsx } rfl
  exact h

/-! ## The install pipeline (lines 179-215, darwin path)

Sequence as executed: `mkdtemp` the temporary download directory and
register the `process.on("exit")` cleanup (lines 185-190); stream the
asset download (192-197); `hdiutil attach` (204); `fs.mkdir(cacheDir/tag,
{recursive})` (206); `cp -R` the payload (207); `hdiutil detach` (208);
write `release.json` last (212).  Any thrown error lands in the top-level
`catch` (line 229), so execution after a failure goes straight to process
exit. -/

/-- The stage at which an injected failure aborts the pipeline. -/
inductive FailPoint where
  | download
  | attach
  | copy
  | detach
  | manifestWrite
deriving Repr, DecidableEq

/-- The disk state the pipeline touches: the cache root and whether the
temporary download directory currently exists. -/
structure Disk where
  cache : CacheDir
  tmpDirExists : Bool
deriving Repr, DecidableEq

/-- `fs.mkdir(join(cacheDir, tag), { recursive: true })` (line 206):
creates the directory if no entry of that name exists yet. -/
def mkdirCacheTag (c : CacheDir) (tag : String) : CacheDir :=
  if c.entries.any (fun e => e.name == tag) then c
  else ⟨c.entries ++ [{ name := tag, isDir := true,
                        releaseJson := .missing }]⟩

/-- Line 212: write the serialized chosen release into
`cacheDir/<tag>/release.json`. -/
def writeManifestFile (c : CacheDir) (tag : String) (r : Release) :
    CacheDir :=
  ⟨c.entries.map (fun e =>
    if e.name == tag then { e with releaseJson := FileContent.parsed r }
    else e)⟩

/-- The pipeline with an injected failure point (`none` = all stages
succeed).  Returns the disk at the moment the pipeline stops and whether
it completed. -/
def runPipeline (disk : Disk) (rel : Release) (fail : Option FailPoint) :
    Disk × Bool :=
  let d0 : Disk := { disk with tmpDirExists := true }
  if fail = some .download ∨ fail = some .attach then (d0, false)
  else
    let d1 : Disk := { d0 with cache := mkdirCacheTag d0.cache rel.tag_name }
    if fail = some .copy ∨ fail = some .detach
        ∨ fail = some .manifestWrite then (d1, false)
    else ({ d1 with cache := writeManifestFile d1.cache rel.tag_name rel },
          true)

/-- The `process.on("exit")` hook (lines 188-190): `rmdirSync` of the
temporary directory runs on every exit path once registered. -/
def processExit (d : Disk) : Disk := { d with tmpDirExists := false }

/-- A run starting from an empty cache with no temp directory. -/
def emptyDisk : Disk := ⟨⟨[]⟩, false⟩

/-- Claim C2 is false as stated: a failure at the copy stage happens
after `fs.mkdir(cacheDir/tag)` (line 206), and nothing removes that
directory — after the process exits, the target tag is visible to the
cache enumeration `cachedVersions`, so the cache is not left as it was. -/
theorem C2_counterexample :
    ((runPipeline emptyDisk relExpOsx (some .copy)).2 = false)
    ∧ relExpOsx.tag_name ∈ cachedVersions
        (processExit (runPipeline emptyDisk relExpOsx (some .copy)).1).cache
    ∧ (processExit
        (runPipeline emptyDisk relExpOsx (some .copy)).1).tmpDirExists
        = false := by
  refine ⟨rfl, ?_, rfl⟩
  simp [runPipeline, processExit, mkdirCacheTag, cachedVersions, emptyDisk]

/-- Helper: when no entry named `tag` exists, `mkdir` appends a bare
directory entry. -/
theorem mkdirCacheTag_fresh (c : CacheDir) (tag : String)
    (hfresh : ∀ e ∈ c.entries, e.name ≠ tag) :
    mkdirCacheTag c tag
      = ⟨c.entries ++ [{ name := tag, isDir := true,
                         releaseJson := .missing }]⟩ := by
  unfold mkdirCacheTag
  rw [if_neg]
  simp only [List.any_eq_true, beq_iff_eq, not_exists]
  intro e h
  exact hfresh e h.1 h.2

/-- Helper: the bare directory created by `mkdir` has no parsable
manifest. -/
theorem readManifest_mkdir_self (c : CacheDir) (tag : String)
    (hfresh : ∀ e ∈ c.entries, e.name ≠ tag) :
    readManifest (mkdirCacheTag c tag) tag = none := by
  rw [mkdirCacheTag_fresh c tag hfresh]
  unfold readManifest
  rw [List.find?_append]
  have h1 : c.entries.find? (fun e => e.name == tag) = none :=
    List.find?_eq_none.mpr (by
      intro x hx
      simpa using hfresh x hx)
  rw [h1]
  have h2 : List.find? (fun e => e.name == tag)
      [{ name := tag, isDir := true, releaseJson := .missing : DirEntry }]
      = some { name := tag, isDir := true, releaseJson := .missing } :=
    List.find?_cons_of_pos _ (by simp)
  rw [Option.none_or, h2]

/-- Helper: manifests of versions already enumerated are untouched by the
`mkdir`. -/
theorem readManifest_mkdir_of_mem (c : CacheDir) (tag v : String)
    (hfresh : ∀ e ∈ c.entries, e.name ≠ tag)
    (hv : v ∈ cachedVersions c) :
    readManifest (mkdirCacheTag c tag) v = readManifest c v := by
  rw [mkdirCacheTag_fresh c tag hfresh]
  unfold readManifest
  rw [List.find?_append]
  have hex : (c.entries.find? (fun e => e.name == v)).isSome = true := by
    rw [List.find?_isSome]
    simp only [cachedVersions, List.mem_map, List.mem_filter] at hv
    obtain ⟨e, ⟨he, _⟩, hname⟩ := hv
    exact ⟨e, he, by simp [hname]⟩
  obtain ⟨w, hw⟩ := Option.isSome_iff_exists.mp hex
  rw [hw]
  rfl

/-- Helper: the `mkdir` appends the tag to the directory enumeration. -/
theorem cachedVersions_mkdir (c : CacheDir) (tag : String)
    (hfresh : ∀ e ∈ c.entries, e.name ≠ tag) :
    cachedVersions (mkdirCacheTag c tag) = cachedVersions c ++ [tag] := by
  rw [mkdirCacheTag_fresh c tag hfresh]
  simp [cachedVersions, List.filter_append]

/-- Helper: the manifest-verified enumeration is unchanged by the
`mkdir` of a fresh bare directory. -/
theorem cachedReleases_mkdir (c : CacheDir) (tag : String)
    (hfresh : ∀ e ∈ c.entries, e.name ≠ tag) :
    cachedReleases (mkdirCacheTag c tag) = cachedReleases c := by
  unfold cachedReleases
  rw [cachedVersions_mkdir c tag hfresh, List.filterMap_append]
  have h2 : (cachedVersions c).filterMap (readManifest (mkdirCacheTag c tag))
      = (cachedVersions c).filterMap (readManifest c) :=
    List.filterMap_congr (fun v hv => readManifest_mkdir_of_mem c tag v hfresh hv)
  rw [h2]
  have h3 : [tag].filterMap (readManifest (mkdirCacheTag c tag)) = [] := by
    simp [List.filterMap, readManifest_mkdir_self c tag hfresh]
  rw [h3, List.append_nil]

/-- Claim C2 (amended): a failing pipeline run never yields a parsable
manifest for the target tag, so the manifest-verified enumeration
`cachedReleases` is exactly what it was before, and the temporary
download directory no longer exists after the process exits; a failure
at the download or mount stage leaves the cache byte-for-byte unchanged,
but a failure at the copy, detach or manifest-write stage leaves a bare
`cacheDir/<tag>` directory visible to the directory scan
`cachedVersions`. -/
theorem C2_amended_pipeline_failure (disk : Disk) (rel : Release)
    (f : FailPoint)
    (hfresh : ∀ e ∈ disk.cache.entries, e.name ≠ rel.tag_name) :
    ((runPipeline disk rel (some f)).2 = false)
    ∧ ((processExit (runPipeline disk rel (some f)).1).tmpDirExists = false)
    ∧ (readManifest (processExit (runPipeline disk rel (some f)).1).cache
        rel.tag_name = none)
    ∧ (cachedReleases (processExit (runPipeline disk rel (some f)).1).cache
        = cachedReleases disk.cache)
    ∧ ((f = .download ∨ f = .attach) →
        (processExit (runPipeline disk rel (some f)).1).cache = disk.cache) := by
  have hnone : readManifest disk.cache rel.tag_name = none := by
    unfold readManifest
    rw [List.find?_eq_none.mpr (by
      intro x hx
      simpa using hfresh x hx)]
  cases f
  case download =>
    refine ⟨rfl, rfl, hnone, rfl, fun _ => rfl⟩
  case attach =>
    refine ⟨rfl, rfl, hnone, rfl, fun _ => rfl⟩
  case copy =>
    refine ⟨rfl, rfl, ?_, ?_, ?_⟩
    · exact readManifest_mkdir_self disk.cache rel.tag_name hfresh
    · exact cachedReleases_mkdir disk.cache rel.tag_name hfresh
    · intro h
      rcases h with h | h <;> simp at h
  case detach =>
    refine ⟨rfl, rfl, ?_, ?_, ?_⟩
    · exact readManifest_mkdir_self disk.cache rel.tag_name hfresh
    · exact cachedReleases_mkdir disk.cache rel.tag_name hfresh
    · intro h
      rcases h with h | h <;> simp at h
  case manifestWrite =>
    refine ⟨rfl, rfl, ?_, ?_, ?_⟩
    · exact readManifest_mkdir_self disk.cache rel.tag_name hfresh
    · exact cachedReleases_mkdir disk.cache rel.tag_name hfresh
    · intro h
      rcases h with h | h <;> simp at h

/-- Witness for C2 (amended): failure injected at the copy stage on an
empty cache. -/
theorem C2_amended_pipeline_failure_witness :
    ((runPipeline emptyDisk relExpOsx (some .copy)).2 = false)
    ∧ ((processExit
        (runPipeline emptyDisk relExpOsx (some .copy)).1).tmpDirExists
        = false)
    ∧ (readManifest (processExit
        (runPipeline emptyDisk relExpOsx (some .copy)).1).cache
        relExpOsx.tag_name = none)
    ∧ (cachedReleases (processExit
        (runPipeline emptyDisk relExpOsx (some .copy)).1).cache
        = cachedReleases emptyDisk.cache)
    ∧ ((FailPoint.copy = .download ∨ FailPoint.copy = .attach) →
        (processExit
          (runPipeline emptyDisk relExpOsx (some .copy)).1).cache
          = emptyDisk.cache) :=
  C2_amended_pipeline_failure emptyDisk relExpOsx .copy
    (by intro e he; simp [emptyDisk] at he)

/-! ## The settings write and the run tail (lines 109, 174-219) -/

/-- `lastVersion` (line 109): the stored tag, nulled when it is not
among the cache directories at startup. -/
def lastVersion (cachedVs : List String) (stored : Settings) :
    Option String :=
  match stored.lastVersion with
  | some t => if cachedVs.contains t then some t else none
  | none => none

/-- The run state the post-selection tail mutates: the disk, the
`settings.json` content, and a count of `fs.writeFile(settingsFile, ...)`
calls (to observe writes whose content equals the old one). -/
structure RunState where
  disk : Disk
  settingsFile : FileContent Settings
  settingsWrites : Nat
deriving Repr, DecidableEq

/-- Lines 217-219: `if (chosenRelease.tag_name !== lastVersion)` write
`{ lastVersion: chosenTag }` to `settings.json`. -/
def settingsWriteStep (st : RunState) (chosenTag : String)
    (lastV : Option String) : RunState :=
  if lastV == some chosenTag then st
  else { st with
          settingsFile := .parsed { lastVersion := some chosenTag },
          settingsWrites := st.settingsWrites + 1 }

/-- The post-selection run tail (lines 176-219): if the chosen tag is not
among the cache *directories*, run the install pipeline; a pipeline
failure lands in the top-level `catch` (line 229), skipping the settings
write.  Otherwise `settings.json` is written iff the chosen tag differs
from the effective `lastVersion` of line 109.  Returns the state and
whether the run reached the launch step. -/
def finishRun (st : RunState) (cachedVs : List String)
    (lastV : Option String) (chosen : Release) (fail : Option FailPoint) :
    RunState × Bool :=
  if cachedVs.contains chosen.tag_name then
    (settingsWriteStep st chosen.tag_name lastV, true)
  else
    let p := runPipeline st.disk chosen fail
    if p.2 then
      (settingsWriteStep { st with disk := p.1 } chosen.tag_name lastV, true)
    else ({ st with disk := p.1 }, false)

/-- A start state whose settings file stores `lastVersion = "0.G"` while
the cache holds no directories. -/
def staleSettingsStart : RunState :=
  { disk := emptyDisk,
    settingsFile := .parsed { lastVersion := some "0.G" },
    settingsWrites := 0 }

/-- Claim C10 is false as stated: the written-iff-differs comparison uses
the *nulled* `lastVersion` of line 109, not the raw value read from
settings.  Here settings store `lastVersion = "0.G"`, the tag is not
cached, the user picks `0.G` and the pipeline succeeds: the chosen tag
equals the stored value, yet `settings.json` is written. -/
theorem C10_counterexample :
    (readSettings staleSettingsStart.settingsFile
        = { lastVersion := some "0.G" })
    ∧ relStable.tag_name = "0.G"
    ∧ lastVersion [] { lastVersion := some "0.G" } = none
    ∧ ((finishRun staleSettingsStart []
        (lastVersion [] { lastVersion := some "0.G" }) relStable none).2
        = true)
    ∧ ((finishRun staleSettingsStart []
        (lastVersion [] { lastVersion := some "0.G" }) relStable none).1.settingsWrites
        = 1) := by
  refine ⟨rfl, rfl, rfl, rfl, rfl⟩

/-- Claim C10 (amended): on a run that reaches the launch step, the
settings file is written iff the chosen tag differs from the *effective*
`lastVersion` (the stored tag if it was a cache directory at startup,
else null), the new content then being exactly the chosen tag; on a run
aborted by a pipeline failure the settings file is untouched. -/
theorem C10_amended_settings_write_guard (st : RunState)
    (cachedVs : List String) (stored : Settings) (chosen : Release)
    (fail : Option FailPoint) :
    ((finishRun st cachedVs (lastVersion cachedVs stored) chosen fail).2
        = true →
      ((finishRun st cachedVs (lastVersion cachedVs stored) chosen
          fail).1.settingsWrites
        = st.settingsWrites
          + (if lastVersion cachedVs stored == some chosen.tag_name
             then 0 else 1))
      ∧ ((finishRun st cachedVs (lastVersion cachedVs stored) chosen
          fail).1.settingsFile
        = if lastVersion cachedVs stored == some chosen.tag_name
          then st.settingsFile
          else .parsed { lastVersion := some chosen.tag_name }))
    ∧ ((finishRun st cachedVs (lastVersion cachedVs stored) chosen fail).2
        = false →
      ((finishRun st cachedVs (lastVersion cachedVs stored) chosen
          fail).1.settingsFile = st.settingsFile)
      ∧ ((finishRun st cachedVs (lastVersion cachedVs stored) chosen
          fail).1.settingsWrites = st.settingsWrites)) := by
  have key : ∀ (st' : RunState),
      ((settingsWriteStep st' chosen.tag_name
          (lastVersion cachedVs stored)).settingsWrites
        = st'.settingsWrites
          + (if lastVersion cachedVs stored == some chosen.tag_name
             then 0 else 1))
      ∧ ((settingsWriteStep st' chosen.tag_name
          (lastVersion cachedVs stored)).settingsFile
        = if lastVersion cachedVs stored == some chosen.tag_name
          then st'.settingsFile
          else .parsed { lastVersion := some chosen.tag_name }) := by
    intro st'
    unfold settingsWriteStep
    cases hb : (lastVersion cachedVs stored == some chosen.tag_name) <;>
      simp [hb]
  unfold finishRun
  cases hc : cachedVs.contains chosen.tag_name
  case true =>
    constructor
    · intro _
      simpa using key st
    · intro h
      simp at h
  case false =>
    cases hp : (runPipeline st.disk chosen fail).2
    case true =>
      constructor
      · intro _
        simpa [hp] using
          key { st with disk := (runPipeline st.disk chosen fail).1 }
      · intro h
        simp [hp] at h
    case false =>
      constructor
      · intro h
        simp [hp] at h
      · intro _
        simp [hp]

/-- Witness for C10 (amended): the successful stale-settings run, and a
run aborted at the download stage. -/
theorem C10_amended_settings_write_guard_witness :
    ((finishRun staleSettingsStart []
        (lastVersion [] { lastVersion := some "0.G" }) relStable
        none).1.settingsWrites
      = staleSettingsStart.settingsWrites
        + (if lastVersion [] { lastVersion := some "0.G" }
              == some relStable.tag_name then 0 else 1))
    ∧ ((finishRun staleSettingsStart []
        (lastVersion [] { lastVersion := some "0.G" }) relStable
        (some .download)).1.settingsFile
      = staleSettingsStart.settingsFile) :=
  ⟨((C10_amended_settings_write_guard staleSettingsStart []
      { lastVersion := some "0.G" } relStable none).1 rfl).1,
   ((C10_amended_settings_write_guard staleSettingsStart []
      { lastVersion := some "0.G" } relStable (some .download)).2 rfl).1⟩
